import Mathlib

/-!
Verification of the `SortByPill` component
(`packages/ui/src/elements/FolderView/SortByPill/index.tsx`).

The component derives a sort field and a sort direction from an opaque sort
descriptor string (leading `'-'` means descending, the rest is the field key),
renders a trigger pill showing the selected field's label, and on menu clicks
requests descriptor changes through the `refineFolderData` mutator.

JavaScript strings are modelled as Lean `String`s, and the three string
primitives the component uses are transcribed at the character-sequence level,
which is their JavaScript semantics:
  * `sort.startsWith('-')`   — the first character is `'-'`;
  * `sort.slice(1)`          — the string without its first character;
  * the template `` `-${sort}` `` — `'-'` prepended to the string.
-/

namespace SortByPill

/-- JS `s.startsWith('-')`: whether the first character of `s` is `'-'`. -/
def startsWithDash (s : String) : Bool :=
  s.data.head? == some '-'

/-- JS `s.slice(1)`: `s` without its first character. -/
def slice1 (s : String) : String :=
  String.mk (s.data.drop 1)

/-- JS template `` `-${s}` ``: the character `'-'` prepended to `s`. -/
def prependDash (s : String) : String :=
  String.mk ('-' :: s.data)

/-- A menu option: a translation key used for its label, and its `value`.
(The source stores `label` as a render function over the translation function
`t`; only the key it passes to `t` is relevant here.) -/
structure SelectOption where
  label : String
  value : String
deriving DecidableEq, Repr

/-- `sortOnOptions` from the source: the three field options. -/
def sortOnOptions : List SelectOption :=
  [⟨"general:name", "_folderOrDocumentTitle"⟩,
   ⟨"general:createdAt", "createdAt"⟩,
   ⟨"general:updatedAt", "updatedAt"⟩]

/-- `orderOnOptions` from the source: the two direction options. -/
def orderOnOptions : List SelectOption :=
  [⟨"general:ascending", "asc"⟩,
   ⟨"general:descending", "desc"⟩]

/-- `const sortDirection = sort.startsWith('-') ? 'desc' : 'asc'`. -/
def sortDirection (sort : String) : String :=
  if startsWithDash sort then "desc" else "asc"

/-- The expression `sort.startsWith('-') ? sort.slice(1) : sort` that the
source inlines into the `selectedSortOption` filter: the field key of the
descriptor. -/
def fieldKey (sort : String) : String :=
  if startsWithDash sort then slice1 sort else sort

/-- `sortOnOptions.filter(({ value }) => value === (sort.startsWith('-') ?
sort.slice(1) : sort))`. -/
def selectedSortOptions (sort : String) : List SelectOption :=
  sortOnOptions.filter (fun o => o.value == fieldKey sort)

/-- `const [selectedSortOption] = ...`: array destructuring takes the first
filtered element, `undefined` (here `none`) when the filter found nothing. -/
def selectedSortOption (sort : String) : Option SelectOption :=
  (selectedSortOptions sort).head?

/-- `orderOnOptions.filter(({ value }) => value === sortDirection)`. -/
def selectedOrderOptions (sort : String) : List SelectOption :=
  orderOnOptions.filter (fun o => o.value == sortDirection sort)

/-- `const [selectedOrderOption] = ...`. -/
def selectedOrderOption (sort : String) : Option SelectOption :=
  (selectedOrderOptions sort).head?

/-- The trigger pill's field label, `selectedSortOption.label(t)` in the
source.  The member access is unguarded, so when no field option matched,
`selectedSortOption` is `undefined` and the access raises a TypeError;
`none` models that failure, `some k` a successful render with label key `k`. -/
def renderTriggerLabel (sort : String) : Option String :=
  (selectedSortOption sort).map (fun o => o.label)

/-- The argument object of a `refineFolderData({ query: { sort }, updateURL })`
call. -/
structure RefineArgs where
  sort : String
  updateURL : Bool
deriving DecidableEq, Repr

/-- The observable effects of running one click handler: the list of
`refineFolderData` calls it made, in order, and whether it called `close()`. -/
structure HandlerResult where
  calls : List RefineArgs
  closed : Bool
deriving DecidableEq, Repr

/-- The `onClick` handler of the field option with value `value`.  The current
descriptor `sort` is in scope in the source closure but unused: the handler
always calls `refineFolderData({ query: { sort: value }, updateURL: true })`
and then `close()`. -/
def onSortOptionClick (sort value : String) : HandlerResult :=
  { calls := [⟨value, true⟩], closed := true }

/-- The `onClick` handler of the direction option with value `value`, given
the current descriptor `sort`:
`if (value === 'asc') { refineFolderData({ query: { sort: value === 'asc' ?
`-${sort}` : sort }, updateURL: true }) } close()`. -/
def onOrderOptionClick (sort value : String) : HandlerResult :=
  if value == "asc" then
    { calls := [⟨if value == "asc" then prependDash sort else sort, true⟩],
      closed := true }
  else
    { calls := [], closed := true }

/-- The descriptor after a handler runs: the sort requested through
`refineFolderData` if the handler called it, else the current descriptor
(the folder-data context leaves `sort` unchanged when the mutator is never
invoked). -/
def appliedSort (current : String) (r : HandlerResult) : String :=
  match (r.calls.map RefineArgs.sort).head? with
  | some s => s
  | none => current

end SortByPill

namespace SortByPill

/-- C1: for every current sort descriptor, clicking the "descending" direction
option makes no `refineFolderData` call and leaves the descriptor unchanged:
the handler's branch only fires when the chosen value is `'asc'`. -/
theorem desc_click_no_descriptor_change (sort : String) :
    (onOrderOptionClick sort "desc").calls = [] ∧
    appliedSort sort (onOrderOptionClick sort "desc") = sort :=
  ⟨rfl, rfl⟩

/-- C2: for every current descriptor and every chosen field value, the field
option's handler requests exactly one descriptor change, equal to the chosen
value verbatim (no leading dash added), so direction always resets to
ascending; in particular from `"-createdAt"` selecting `updatedAt` yields
`"updatedAt"`, not `"-updatedAt"`. -/
theorem field_click_requests_value_verbatim (sort value : String) :
    (onSortOptionClick sort value).calls.map RefineArgs.sort = [value] ∧
    appliedSort sort (onSortOptionClick sort value) = value ∧
    appliedSort "-createdAt" (onSortOptionClick "-createdAt" "updatedAt")
      = "updatedAt" :=
  ⟨rfl, rfl, rfl⟩

/-- C3: evaluation at the claim's scenario — with descriptor `"title"`
(already ascending), clicking the "ascending" option is not a no-op: the
handler requests the descriptor `"-title"`, toggling to descending, against
the evident intent that re-selecting the active direction leaves the
descriptor `"title"`. -/
theorem asc_click_on_title_requests_dash_title :
    appliedSort "title" (onOrderOptionClick "title" "asc") = "-title" ∧
    (onOrderOptionClick "title" "asc").calls ≠ [] := by
  constructor
  · rfl
  · decide

/-- C8: every menu interaction — any field option click and either direction
option click — invokes the menu's `close` callback, including the descending
path where no descriptor change is requested. -/
theorem every_click_closes_menu (sort value : String) :
    (onSortOptionClick sort value).closed = true ∧
    (onOrderOptionClick sort value).closed = true := by
  refine ⟨rfl, ?_⟩
  unfold onOrderOptionClick
  split <;> rfl

/-- C9: for every current descriptor, clicking the "ascending" direction
option requests `'-'` prepended to the descriptor; in particular from
`"-createdAt"` it requests `"--createdAt"` rather than restoring
`"createdAt"`, so repeated "ascending" clicks accumulate leading dashes. -/
theorem asc_click_prepends_dash (sort : String) :
    (onOrderOptionClick sort "asc").calls.map RefineArgs.sort
      = [String.mk ('-' :: sort.data)] ∧
    appliedSort "-createdAt" (onOrderOptionClick "-createdAt" "asc")
      = "--createdAt" :=
  ⟨rfl, by decide⟩

/-- C4: for every descriptor `d`, the derived direction is `"desc"` exactly
when the first character of `d` is `'-'`, and `"asc"` otherwise. -/
theorem direction_desc_iff_leading_dash (d : String) :
    (sortDirection d = "desc" ↔ d.data.head? = some '-') ∧
    (sortDirection d = "asc" ↔ ¬ d.data.head? = some '-') := by
  unfold sortDirection startsWithDash
  by_cases h : d.data.head? = some '-' <;> simp [h]

/-- C5: for every descriptor `d`, the derived field key drops exactly the
first character when `d` starts with `'-'` (so `"--x"` yields `"-x"`), and is
`d` unchanged otherwise. -/
theorem fieldKey_removes_one_leading_dash (d : String) :
    (d.data.head? = some '-' → fieldKey d = String.mk d.data.tail) ∧
    (d.data.head? ≠ some '-' → fieldKey d = d) ∧
    fieldKey "--x" = "-x" := by
  refine ⟨?_, ?_, by decide⟩ <;> intro h <;>
    simp [fieldKey, startsWithDash, slice1, h, List.drop_one]

/-- Witness for C5: the two implications discharged at `"-abc"` and
`"title"`. -/
theorem fieldKey_removes_one_leading_dash_witness :
    fieldKey "-abc" = String.mk "-abc".data.tail ∧ fieldKey "title" = "title" :=
  ⟨(fieldKey_removes_one_leading_dash "-abc").1 (by decide),
   (fieldKey_removes_one_leading_dash "title").2.1 (by decide)⟩

/-- Counterexample to C6: at descriptor `"foo"` the selected-field lookup
does yield `undefined` silently, but the component does not render the
trigger with nothing selected: rendering the trigger label dereferences the
missing option and fails (`renderTriggerLabel` is not `some`). -/
theorem unmatched_field_trigger_label_fails :
    selectedSortOption "foo" = none ∧
    ¬ (renderTriggerLabel "foo").isSome = true := by
  decide

/-- C6 amended: when the descriptor's field key matches no field option, the
lookup yields no option and rendering the trigger label fails on the missing
reference (modelled as `none`) instead of rendering with nothing selected. -/
theorem unmatched_field_crashes_trigger (d : String)
    (h : fieldKey d ∉ sortOnOptions.map SelectOption.value) :
    selectedSortOption d = none ∧ renderTriggerLabel d = none := by
  simp only [sortOnOptions, List.map, List.mem_cons, List.not_mem_nil,
    not_or, or_false] at h
  obtain ⟨h1, h2, h3⟩ := h
  have hfil : selectedSortOptions d = [] := by
    simp [selectedSortOptions, sortOnOptions, Ne.symm h1, Ne.symm h2,
      Ne.symm h3]
  exact ⟨by simp [selectedSortOption, hfil],
    by simp [renderTriggerLabel, selectedSortOption, hfil]⟩

/-- Witness for C6's amended theorem, at descriptor `"foo"`. -/
theorem unmatched_field_crashes_trigger_witness :
    fieldKey "foo" ∉ sortOnOptions.map SelectOption.value ∧
    selectedSortOption "foo" = none ∧ renderTriggerLabel "foo" = none :=
  ⟨by decide, (unmatched_field_crashes_trigger "foo" (by decide)).1,
    (unmatched_field_crashes_trigger "foo" (by decide)).2⟩

/-- Counterexample to C7: at descriptor `"bar"` it is not the case that
exactly one field option and exactly one direction option are selected — no
field option is selected there. -/
theorem not_always_exactly_one_selected :
    ¬ ((selectedSortOptions "bar").length = 1 ∧
       (selectedOrderOptions "bar").length = 1) := by
  decide

/-- C7 amended: for every descriptor, exactly one direction option is
selected, and at most one field option is selected — exactly one precisely
when the descriptor's field key is one of the three option values; both
selections are computed by pure functions of the descriptor string alone. -/
theorem selection_counts (d : String) :
    (selectedOrderOptions d).length = 1 ∧
    (selectedSortOptions d).length ≤ 1 ∧
    ((selectedSortOptions d).length = 1 ↔
      fieldKey d ∈ sortOnOptions.map SelectOption.value) := by
  refine ⟨?_, ?_⟩
  · unfold selectedOrderOptions orderOnOptions sortDirection
    by_cases h : startsWithDash d = true <;> simp [h]
  · unfold selectedSortOptions sortOnOptions
    by_cases h1 : fieldKey d = "_folderOrDocumentTitle"
    · simp [h1]
    · by_cases h2 : fieldKey d = "createdAt"
      · simp [h2, Ne.symm h1]
      · by_cases h3 : fieldKey d = "updatedAt"
        · simp [h3, Ne.symm h1, Ne.symm h2]
        · simp [Ne.symm h1, Ne.symm h2, Ne.symm h3, h1, h2, h3]

/-- C10: every `refineFolderData` call the component can make — from the
field-selection handler or from the direction handler's ascending branch —
passes `updateURL := true`. -/
theorem every_refine_call_updates_url (sort value : String) :
    (((onSortOptionClick sort value).calls ++ (onOrderOptionClick sort value).calls).all
      (fun c => c.updateURL)) = true := by
  unfold onSortOptionClick onOrderOptionClick
  split <;> rfl

end SortByPill
